import Mathlib

/-!
Verification of the tubetimeout packet-filtering gateway.

This file gives a shallow embedding, in Lean 4, of the parts of the Go
source that the verified properties talk about:

* `usage/tracker.go` — the usage tracker (window calculation, sample
  index, threshold checks);
* `nfq/filter.go` — the userspace packet-verdict handler;
* `monitor/traffic_stats.go` — the per-(group, MAC) traffic monitor;
* the domain watcher, net watcher and group-MACs configuration code.

Modelling conventions:

* Go `time.Time` and `time.Duration` are integer nanosecond counts (`Int`).
* Go maps are association lists with at most one binding per key
  (`GoMap`); map assignment replaces an existing binding, mirroring Go's
  last-writer-wins semantics.  Go iteration order over a map is
  nondeterministic; the model iterates in list order, and no verified
  property depends on that order.
* Go strings are either Lean `String`s or, where the code indexes into
  the result of `strings.Split`, lists of characters (`GoStr`).
* Go's float32/float64 random draws are modelled as rational numbers in
  `[0, 1)`; float-to-`time.Duration` conversion truncates toward zero,
  modelled by `ratTrunc`.
* Functions that can panic in Go (slice allocation with a negative
  length, integer division by zero) return `Option`, with `none` on the
  panicking input.
-/

namespace TubeTimeout

/-! ## Go primitives -/

/-- Nanoseconds in a minute (Go `time.Minute`). -/
def minuteNs : Int := 60000000000

/-- Nanoseconds in an hour (Go `time.Hour`). -/
def hourNs : Int := 60 * minuteNs

/-- Nanoseconds in a day (`24 * time.Hour`). -/
def dayNs : Int := 24 * hourNs

/-- Nanoseconds in a week (`7 * 24 * time.Hour`). -/
def weekNs : Int := 7 * dayNs

/-- Go `time.Time.Truncate`: rounds `t` down to a multiple of `d` since the
zero time; returns `t` unchanged when `d ≤ 0`. -/
def goTruncate (t d : Int) : Int := if 0 < d then t - t.emod d else t

/-- Minute-of-hour of an instant, Go `time.Time.Minute()` (for the
non-negative instants the program works with). -/
def minuteOfHour (t : Int) : Nat := ((t.ediv minuteNs).emod 60).toNat

/-- Day-of-week of an instant, Go `time.Time.Weekday()` with Sunday = 0.
Go's zero time (Jan 1, year 1) is a Monday, hence the `+ 1`. -/
def weekdayOf (t : Int) : Int := ((t.fdiv dayNs) + 1).emod 7

/-- A Go map, modelled as an association list with at most one binding per
key (all maps built below keep keys unique by construction). -/
abbrev GoMap (α β : Type) : Type := List (α × β)

/-- Empty Go map. -/
def mapEmpty {α β : Type} : GoMap α β := []

/-- Go map read `v, ok := m[k]`. -/
def mapLookup {α β : Type} [DecidableEq α] : GoMap α β → α → Option β
  | [], _ => none
  | (k0, v0) :: rest, k => if k0 = k then some v0 else mapLookup rest k

/-- Go map assignment `m[k] = v`: replaces an existing binding, otherwise
appends a new one. -/
def mapInsert {α β : Type} [DecidableEq α] : GoMap α β → α → β → GoMap α β
  | [], k, v => [(k, v)]
  | (k0, v0) :: rest, k, v =>
      if k0 = k then (k0, v) :: rest else (k0, v0) :: mapInsert rest k v

/-- The values of a Go map (`for _, v := range m`). -/
def mapValues {α β : Type} (m : GoMap α β) : List β := m.map Prod.snd

/-- Go `maps.Copy(dst, src)`: inserts every binding of `src` into `dst`,
overwriting existing keys. -/
def mapsCopy {α β : Type} [DecidableEq α] (dst src : GoMap α β) : GoMap α β :=
  src.foldl (fun d kv => mapInsert d kv.1 kv.2) dst

/-- Go `maps.EqualFunc(m1, m2, eq)` with `eq` decidable equality: equal
lengths and every binding of `m1` present in `m2` with an equal value. -/
def mapEqual {α β : Type} [DecidableEq α] [DecidableEq β] (m1 m2 : GoMap α β) : Bool :=
  m1.length == m2.length && m1.all (fun kv => mapLookup m2 kv.1 == some kv.2)

/-- Truncation of a rational toward zero, Go's float-to-integer
conversion. -/
def ratTrunc (q : ℚ) : Int := q.num.tdiv (q.den : Int)

/-! ## Usage tracker (`usage/tracker.go`)

Per-group tracker state.  Time-typed fields (`granularity`, `retention`,
`threshold`, `startDuration`, `modeEndTime`, `windowStartTime`) are
nanosecond counts. -/

/-- Tracker mode (`models.UsageTrackerMode`). -/
inductive TrackerMode
  | monitor
  | allow
  | block
deriving DecidableEq

/-- The per-group tracker configuration (`models.TrackerConfig`), with the
fields the tracker logic reads. -/
structure TrackerConfig where
  granularity : Int
  retention : Int
  threshold : Int
  startDayInt : Int
  startDuration : Int
  sampleSize : Int
  mode : TrackerMode
  modeEndTime : Int
deriving DecidableEq

/-- Per-device tracker state (`usage.deviceData`, minus the mutex). -/
structure DeviceData where
  config : TrackerConfig
  samples : List Bool
  windowStartTime : Int
deriving DecidableEq

/-- `usage.getSampleSize`: `int(cfg.Retention / cfg.Granularity)`, Go
integer division (truncated toward zero).  The Go code only calls this
with a non-zero granularity. -/
def getSampleSize (cfg : TrackerConfig) : Int :=
  cfg.retention.tdiv cfg.granularity

/-- `deviceData.calculateWindow`: start of the last and of the next
retention window for the instant `now` (weekly, daily and sub-daily
branches of `usage/tracker.go` lines 302-334). -/
def calculateWindow (cfg : TrackerConfig) (now : Int) : Int × Int :=
  if weekNs ≤ cfg.retention then
    let startOfWeek := goTruncate now weekNs + (cfg.startDayInt - weekdayOf now) * dayNs
    let lastA := goTruncate (startOfWeek + cfg.startDuration) cfg.granularity
    let lastWindowStart :=
      if now < lastA then goTruncate (lastA - weekNs) cfg.granularity else lastA
    (lastWindowStart, goTruncate (lastWindowStart + weekNs) cfg.granularity)
  else if dayNs ≤ cfg.retention then
    let startOfDay := goTruncate now dayNs
    let lastA := startOfDay + cfg.startDuration
    let lastWindowStart :=
      if now < lastA then goTruncate (lastA - dayNs) cfg.granularity else lastA
    (lastWindowStart, goTruncate (lastWindowStart + dayNs) cfg.granularity)
  else
    let baseWindowStart := goTruncate now cfg.retention
    let lastA := goTruncate (baseWindowStart + cfg.startDuration) cfg.granularity
    let lastWindowStart :=
      if now < lastA then
        goTruncate (baseWindowStart - cfg.retention + cfg.startDuration) cfg.granularity
      else lastA
    (lastWindowStart, goTruncate (lastWindowStart + cfg.retention) cfg.granularity)

/-- `usage.newDeviceData`: clamps the retention to a week, zeroes the
start day for sub-daily retentions, applies threshold/granularity
defaults, recomputes the sample size and allocates the sample buffer.
Returns `none` when `make([]bool, SampleSize)` would panic (negative
size). -/
def newDeviceData (now : Int) (cfg0 : TrackerConfig) : Option DeviceData :=
  let r1 := if weekNs < cfg0.retention then weekNs else cfg0.retention
  let sd := if r1 < dayNs then 0 else cfg0.startDayInt
  let th := if cfg0.threshold = 0 then minuteNs else cfg0.threshold
  let g := if cfg0.granularity = 0 then minuteNs else cfg0.granularity
  let cfg : TrackerConfig :=
    { cfg0 with retention := r1, startDayInt := sd, threshold := th, granularity := g }
  let cfg : TrackerConfig := { cfg with sampleSize := getSampleSize cfg }
  if cfg.sampleSize < 0 then none
  else
    some { config := cfg
           samples := List.replicate cfg.sampleSize.toNat false
           windowStartTime := (calculateWindow cfg now).1 }

/-- `deviceData.getIndex`: index into the circular sample buffer.
`elapsed` is Go integer division of durations; the double modulo keeps
the result non-negative on clock regressions.  Returns `none` on the
inputs where Go would panic (division or modulus by zero). -/
def getIndex (cfg : TrackerConfig) (now bufferStart : Int) : Option Int :=
  if cfg.granularity = 0 ∨ cfg.sampleSize = 0 then none
  else
    let elapsed := (now - bufferStart).tdiv cfg.granularity
    some ((elapsed.tmod cfg.sampleSize + cfg.sampleSize).tmod cfg.sampleSize)

/-- `deviceData.syncWindow`: when the elapsed slice count leaves
`[0, SampleSize)`, zero every sample and recompute the window start. -/
def syncWindow (dd : DeviceData) (now : Int) : DeviceData :=
  let elapsed := (now - dd.windowStartTime).tdiv dd.config.granularity
  if dd.config.sampleSize ≤ elapsed ∨ elapsed < 0 then
    { dd with samples := dd.samples.map (fun _ => false)
              windowStartTime := (calculateWindow dd.config now).1 }
  else dd

/-- `Tracker.HasExceededThreshold` for a loaded device: the allow/block
short-circuits, then window sync and the sample count comparison
(`usage/tracker.go` lines 245-266).  Returns the updated device state
and the boolean result. -/
def hasExceededThresholdDD (dd : DeviceData) (now : Int) : DeviceData × Bool :=
  if dd.config.mode = TrackerMode.allow ∧ now < dd.config.modeEndTime then
    (dd, false)
  else if dd.config.mode = TrackerMode.block ∧ now < dd.config.modeEndTime then
    (dd, true)
  else
    let dd2 := syncWindow dd now
    let count : Int := dd2.samples.count true
    (dd2, decide (dd2.config.threshold ≤ count * dd2.config.granularity))

/-- The sample-recording and mode-reset part of `Tracker.AddSample`
(`usage/tracker.go` lines 215-229) for an existing device whose
configuration is up to date.  When the group is active and the tracker is
in monitor mode, sync the window and mark the current slot; then
auto-revert an expired allow/block mode to monitor.  Go would panic where
`getIndex` is `none`; the model leaves the buffer unchanged there. -/
def addSampleDD (dd0 : DeviceData) (now : Int) (active : Bool) : DeviceData :=
  let dd :=
    if active ∧ dd0.config.mode = TrackerMode.monitor then
      let dd1 := syncWindow dd0 now
      match getIndex dd1.config now dd1.windowStartTime with
      | some i => { dd1 with samples := dd1.samples.set i.toNat true }
      | none => dd1
    else dd0
  if (dd.config.mode = TrackerMode.allow ∨ dd.config.mode = TrackerMode.block) ∧
      dd.config.modeEndTime < now then
    { dd with config := { dd.config with mode := TrackerMode.monitor } }
  else dd

/-! ## Packet filter (`nfq/filter.go`)

The per-packet handler `fnPacketHandler`.  Netlink attributes reduce to
the packet payload (a byte list, or `none` for a nil payload); the group
manager, traffic counter and usage tracker are oracles; the successive
`rand.Float32()`/`rand.Float64()` draws of each loop iteration are given
by `GroupRand` values indexed by the group's position in the matched
list.  The handler's observable effects — verdict writes, log events,
group-manager consultation, traffic counting, sample recording and delay
sleeps — are collected in a trace. -/

/-- Traffic direction (`models.Direction`). -/
inductive Direction
  | ingress
  | egress
deriving DecidableEq

/-- A netfilter verdict (`nfqueue.NfAccept` / `nfqueue.NfDrop`), the only
two values `fnPacketHandler` ever writes. -/
inductive Verdict
  | nfAccept
  | nfDrop
deriving DecidableEq

/-- The handler's per-group decision, as recorded in its debug log. -/
inductive Decision
  | accept
  | delay
  | drop
deriving DecidableEq

/-- Zap log levels used by the handler. -/
inductive LogLevel
  | debug
  | info
  | warn
  | error
deriving DecidableEq

/-- A log event: level plus the constant message text (structured fields
are dropped). -/
structure LogEvent where
  level : LogLevel
  msg : String
deriving DecidableEq

/-- The filter configuration fields the handler reads
(`config.FilterConfig`).  Percentages are float32 values in `[0, 1]`,
modelled as rationals; delays are `time.Duration` nanosecond counts. -/
structure FilterConfig where
  packetDropPercentage : ℚ
  packetDelayPercentage : ℚ
  packetDelayMs : Int
  packetJitterMs : Int
  packetDropUDP : Bool

/-- The random draws consumed by one iteration of the per-group loop:
`u1` for the drop test, `u2` for the delay test, `u3` inside
`ApplyJitter`.  Each is a uniform value in `[0, 1)`. -/
structure GroupRand where
  u1 : ℚ
  u2 : ℚ
  u3 : ℚ

/-- `nfq.ApplyJitter`: random delay `base + (u*2 - 1) * jitterRange`,
the jitter truncated to a whole `time.Duration` as Go's float-to-int64
conversion does, clamped at zero. -/
def applyJitterGo (baseDelayMs jitterRangeMs : Int) (u : ℚ) : Int :=
  let jitter := ratTrunc ((u * 2 - 1) * (jitterRangeMs : ℚ))
  let totalDelay := baseDelayMs + jitter
  if totalDelay < 0 then 0 else totalDelay

/-- `nfq.getPacketIPs`: requires a non-nil payload of at least 20 bytes,
and returns ((source bytes 12-15, destination bytes 16-19), length). -/
def getPacketIPs (payload : Option (List Nat)) :
    Except String ((List Nat × List Nat) × Nat) :=
  match payload with
  | none => Except.error "payload is nil"
  | some p =>
      if p.length < 20 then Except.error "payload too short for IPv4 header"
      else Except.ok (((p.drop 12).take 4, (p.drop 16).take 4), p.length)

/-- The decision one loop iteration reaches for a group whose threshold
state is `exceeded` (lines 160-172 of `nfq/filter.go`): when exceeded,
drop if `u1 < PacketDropPercentage` or the packet is UDP and
`PacketDropUDP` is set; otherwise delay if `PacketDelayMs > 0` and
`u2 < PacketDelayPercentage`; otherwise accept. -/
def groupDecision (cfg : FilterConfig) (isUDP : Bool) (exceeded : Bool)
    (r : GroupRand) : Decision :=
  if exceeded then
    if r.u1 < cfg.packetDropPercentage ∨ (isUDP ∧ cfg.packetDropUDP) then Decision.drop
    else if 0 < cfg.packetDelayMs ∧ r.u2 < cfg.packetDelayPercentage then Decision.delay
    else Decision.accept
  else Decision.accept

/-- The decisions of the per-group loop, in order. -/
def groupDecisions (cfg : FilterConfig) (isUDP : Bool) (exceeded : String → Bool)
    (rands : Nat → GroupRand) : List String → Nat → List Decision
  | [], _ => []
  | g :: gs, i =>
      groupDecision cfg isUDP (exceeded g) (rands i) ::
        groupDecisions cfg isUDP exceeded rands gs (i + 1)

/-- One pass of the handler's per-group loop (`nfq/filter.go` lines
156-182), threading the packet verdict: every group is counted and
sampled; a drop decision sets the verdict to `NfDrop` (never reset); a
delay decision sleeps for `ApplyJitter(delay, jitter)`.  Returns the
final verdict, the groups passed to `CountTraffic`, the
`(group, active)` pairs passed to `AddSample`, and the sleep durations. -/
def processGroups (cfg : FilterConfig) (isUDP : Bool) (active exceeded : String → Bool)
    (rands : Nat → GroupRand) :
    List String → Nat → Verdict → Verdict × List String × List (String × Bool) × List Int
  | [], _, v => (v, [], [], [])
  | g :: gs, i, v =>
      let d := groupDecision cfg isUDP (exceeded g) (rands i)
      let v2 := if d = Decision.drop then Verdict.nfDrop else v
      let sleeps0 :=
        if d = Decision.delay then
          [applyJitterGo cfg.packetDelayMs cfg.packetJitterMs (rands i).u3]
        else []
      let rest := processGroups cfg isUDP active exceeded rands gs (i + 1) v2
      (rest.1, g :: rest.2.1, (g, active g) :: rest.2.2.1, sleeps0 ++ rest.2.2.2)

/-- The observable effects of one run of `fnPacketHandler`. -/
structure HandlerTrace where
  verdicts : List Verdict
  logs : List LogEvent
  gmConsulted : Bool
  countTrafficCalls : List String
  addSampleCalls : List (String × Bool)
  sleepsNs : List Int
  retval : Int
deriving DecidableEq

/-- The (src, dst) pair the handler passes to the group manager: for
ingress queues source and destination are swapped so that "src" is the
LAN endpoint (`nfq/filter.go` lines 143-152). -/
def handlerSrcDst (direction : Direction) (pips : List Nat × List Nat) :
    List Nat × List Nat :=
  if direction = Direction.egress then (pips.1, pips.2) else (pips.2, pips.1)

/-- `fnPacketHandler` (`nfq/filter.go` lines 112-198): parse the payload
(on failure, log at error level, accept and return); read the protocol
byte; swap src/dst on ingress; consult the group manager; when the pair
is known run the per-group loop; finally write the single verdict. -/
def fnPacketHandler (cfg : FilterConfig) (direction : Direction)
    (gmIsSrcDestIpKnown : List Nat → List Nat → Option (List String))
    (active exceeded : String → Bool) (rands : Nat → GroupRand)
    (payload : Option (List Nat)) : HandlerTrace :=
  match getPacketIPs payload with
  | Except.error _ =>
      { verdicts := [Verdict.nfAccept]
        logs := [⟨LogLevel.error, "Error getting packet data"⟩]
        gmConsulted := false
        countTrafficCalls := []
        addSampleCalls := []
        sleepsNs := []
        retval := 0 }
  | Except.ok (pips, _len) =>
      let protocol := (payload.getD []).getD 9 0
      let sd := handlerSrcDst direction pips
      match gmIsSrcDestIpKnown sd.1 sd.2 with
      | some groups =>
          let r := processGroups cfg (protocol == 17) active exceeded rands groups 0
            Verdict.nfAccept
          { verdicts := [r.1]
            logs := groups.map (fun _ => ⟨LogLevel.debug, "handled packet"⟩)
            gmConsulted := true
            countTrafficCalls := r.2.1
            addSampleCalls := r.2.2.1
            sleepsNs := r.2.2.2
            retval := 0 }
      | none =>
          { verdicts := [Verdict.nfAccept]
            logs := [⟨LogLevel.debug, "Accept unregistered"⟩]
            gmConsulted := true
            countTrafficCalls := []
            addSampleCalls := []
            sleepsNs := []
            retval := 0 }

/-! ## Traffic monitor (`monitor/traffic_stats.go`)

The traffic map keys are the Go strings `"<group>/<mac>"` built by
`getTrafficMapKey`; because `getTrafficMapMACFromKey` indexes the result
of `strings.Split`, strings on this component are modelled as character
lists (`GoStr`). -/

/-- A Go string as a list of characters. -/
abbrev GoStr := List Char

/-- Character-list form of a string literal. -/
def str (s : String) : GoStr := s.toList

/-- Helper for `splitOnChar`: accumulates the current field in reverse. -/
def splitOnCharAux (sep : Char) : List Char → List Char → List GoStr
  | [], acc => [acc.reverse]
  | c :: rest, acc =>
      if c = sep then acc.reverse :: splitOnCharAux sep rest []
      else splitOnCharAux sep rest (c :: acc)

/-- Go `strings.Split(s, sep)` for a one-character separator. -/
def splitOnChar (s : GoStr) (sep : Char) : List GoStr := splitOnCharAux sep s []

/-- A per-direction pair of values (the Go code keys these maps by
`models.Direction`). -/
structure DirVals (α : Type) where
  ingress : α
  egress : α
deriving DecidableEq

/-- Read the value for a direction. -/
def DirVals.get {α : Type} (d : DirVals α) : Direction → α
  | Direction.ingress => d.ingress
  | Direction.egress => d.egress

/-- Replace the value for a direction. -/
def DirVals.put {α : Type} (d : DirVals α) : Direction → α → DirVals α
  | Direction.ingress, v => { d with ingress := v }
  | Direction.egress, v => { d with egress := v }

/-- The activity-monitor configuration read by `trafficStats.isActive`
(`config.ActivityMonitorConfig`). -/
structure ActivityMonitorConfig where
  thresholdIngressEgressKB : Int
  enableThresholdLogic : Bool
deriving DecidableEq

/-- `monitor.trafficStats`, minus mutex and logger.  Rolling arrays hold
one slot per minute of the window; average packet lengths are Go float64
values, modelled as rationals (Lean's `q / 0 = 0` stands in for the
float NaN of an empty minute — the averages are only logged, never
branched on). -/
structure TrafficStats where
  windowSize : Nat
  totalCount : DirVals Int
  rollingCounts : DirVals (List Int)
  rollingPacketLenTotal : DirVals (List Int)
  rollingMinPacketLen : DirVals (List Int)
  rollingMaxPacketLen : DirVals (List Int)
  rollingAvgPacketLen : DirVals (List ℚ)
  lastMinuteIdx : DirVals Nat
  isLastMinuteActive : Bool
  lastActiveTimeUTC : Int
deriving DecidableEq

/-- `monitor.newTrafficStats`: zeroed rolling arrays, last-active time
set to now, activity assumed true until the first minute completes. -/
def newTrafficStats (now : Int) (rollingWindowSize : Nat) : TrafficStats :=
  { windowSize := rollingWindowSize
    totalCount := ⟨0, 0⟩
    rollingCounts := ⟨List.replicate rollingWindowSize 0, List.replicate rollingWindowSize 0⟩
    rollingPacketLenTotal :=
      ⟨List.replicate rollingWindowSize 0, List.replicate rollingWindowSize 0⟩
    rollingMinPacketLen :=
      ⟨List.replicate rollingWindowSize 0, List.replicate rollingWindowSize 0⟩
    rollingMaxPacketLen :=
      ⟨List.replicate rollingWindowSize 0, List.replicate rollingWindowSize 0⟩
    rollingAvgPacketLen :=
      ⟨List.replicate rollingWindowSize 0, List.replicate rollingWindowSize 0⟩
    lastMinuteIdx := ⟨0, 0⟩
    isLastMinuteActive := true
    lastActiveTimeUTC := now }

/-- `trafficStats.isActive`: with threshold logic, active iff the
ingress byte total of the completed minute reaches the threshold and
exceeds the egress total; otherwise active iff either direction saw any
traffic. -/
def TrafficStats.isActive (a : TrafficStats) (cfg : ActivityMonitorConfig)
    (lastMinuteIndex : Nat) : Bool :=
  if cfg.enableThresholdLogic then
    decide (cfg.thresholdIngressEgressKB ≤
        a.rollingPacketLenTotal.ingress.getD lastMinuteIndex 0) &&
      decide (a.rollingPacketLenTotal.egress.getD lastMinuteIndex 0 <
        a.rollingPacketLenTotal.ingress.getD lastMinuteIndex 0)
  else
    decide (0 < a.rollingPacketLenTotal.ingress.getD lastMinuteIndex 0) ||
      decide (0 < a.rollingPacketLenTotal.egress.getD lastMinuteIndex 0)

/-- `monitor.getLastMinuteIdx`. -/
def getLastMinuteIdx (currentIndex : Nat) (moduloSize : Nat) : Nat :=
  if currentIndex = 0 then moduloSize - 1 else currentIndex - 1

/-- The minute-rollover block of `trafficStats.countTraffic`
(`monitor/traffic_stats.go` lines 72-95): finalise the previous minute's
average and activity status, update the last-active time, subtract the
reused slot from the running total, and reset the slot for the new
minute. -/
def finalizeMinute (a : TrafficStats) (cfg : ActivityMonitorConfig)
    (now packetLen : Int) (dir : Direction)
    (currentMinuteIdx lastMinuteIndex : Nat) : TrafficStats :=
  let avg : ℚ := ((a.rollingPacketLenTotal.get dir).getD lastMinuteIndex 0 : ℚ) /
    ((a.rollingCounts.get dir).getD lastMinuteIndex 0 : ℚ)
  let v1 := a.rollingAvgPacketLen.put dir
    ((a.rollingAvgPacketLen.get dir).set lastMinuteIndex avg)
  let a1 := { a with rollingAvgPacketLen := v1 }
  let a2 := { a1 with isLastMinuteActive := a1.isActive cfg lastMinuteIndex }
  let a3 :=
    if a2.isLastMinuteActive then
      { a2 with lastActiveTimeUTC := goTruncate now minuteNs }
    else a2
  let v2 := a3.totalCount.put dir (a3.totalCount.get dir -
    (a3.rollingCounts.get dir).getD currentMinuteIdx 0)
  let a4 := { a3 with totalCount := v2 }
  let v3 := a4.rollingMinPacketLen.put dir
    ((a4.rollingMinPacketLen.get dir).set currentMinuteIdx packetLen)
  let a5 := { a4 with rollingMinPacketLen := v3 }
  let v4 := a5.rollingMaxPacketLen.put dir
    ((a5.rollingMaxPacketLen.get dir).set currentMinuteIdx packetLen)
  let a6 := { a5 with rollingMaxPacketLen := v4 }
  let v5 := a6.rollingCounts.put dir ((a6.rollingCounts.get dir).set currentMinuteIdx 0)
  let a7 := { a6 with rollingCounts := v5 }
  let v6 := a7.rollingPacketLenTotal.put dir
    ((a7.rollingPacketLenTotal.get dir).set currentMinuteIdx 0)
  let a8 := { a7 with rollingPacketLenTotal := v6 }
  let v7 := a8.lastMinuteIdx.put dir (getLastMinuteIdx currentMinuteIdx a8.windowSize)
  { a8 with lastMinuteIdx := v7 }

/-- `trafficStats.countTraffic`: add `count` packets of `packetLen`
bytes for the current minute, finalising the previous minute's slot (and
its activity status) when the minute index moved.  Returns the updated
stats and the last completed minute's activity verdict. -/
def TrafficStats.countTraffic (a : TrafficStats) (cfg : ActivityMonitorConfig)
    (now count packetLen : Int) (dir : Direction) : TrafficStats × Bool :=
  let currentMinuteIdx := minuteOfHour now % a.windowSize
  let lastMinuteIndex := a.lastMinuteIdx.get dir
  let b :=
    if currentMinuteIdx ≠ (lastMinuteIndex + 1) % a.windowSize then
      finalizeMinute a cfg now packetLen dir currentMinuteIdx lastMinuteIndex
    else a
  let v8 := b.rollingCounts.put dir ((b.rollingCounts.get dir).set currentMinuteIdx
    ((b.rollingCounts.get dir).getD currentMinuteIdx 0 + count))
  let b1 := { b with rollingCounts := v8 }
  let v9 := b1.rollingPacketLenTotal.put dir
    ((b1.rollingPacketLenTotal.get dir).set currentMinuteIdx
      ((b1.rollingPacketLenTotal.get dir).getD currentMinuteIdx 0 + packetLen))
  let b2 := { b1 with rollingPacketLenTotal := v9 }
  let v10 := b2.totalCount.put dir (b2.totalCount.get dir + count)
  let b3 := { b2 with totalCount := v10 }
  let b4 :=
    if (b3.rollingMaxPacketLen.get dir).getD currentMinuteIdx 0 < packetLen then
      let v11 := b3.rollingMaxPacketLen.put dir
        ((b3.rollingMaxPacketLen.get dir).set currentMinuteIdx packetLen)
      { b3 with rollingMaxPacketLen := v11 }
    else b3
  let b5 :=
    if packetLen < (b4.rollingMinPacketLen.get dir).getD currentMinuteIdx 0 then
      let v12 := b4.rollingMinPacketLen.put dir
        ((b4.rollingMinPacketLen.get dir).set currentMinuteIdx packetLen)
      { b4 with rollingMinPacketLen := v12 }
    else b4
  (b5, b5.isLastMinuteActive)

/-- `monitor.getTrafficMapKey`: `fmt.Sprintf` of group, separator `"/"`
and MAC. -/
def getTrafficMapKey (group mac : GoStr) : GoStr := group ++ '/' :: mac

/-- `monitor.getTrafficMapMACFromKey`: second field of the key split on
`"/"` (Go indexes `s[1]`, which panics when no separator is present;
keys built by `getTrafficMapKey` always have one). -/
def getTrafficMapMACFromKey (key : GoStr) : GoStr :=
  (splitOnChar key '/').getD 1 []

/-- `monitor.TrafficMap`, minus mutexes and logger: the per-key stats,
the tracked entry count, and the current IP-to-MAC snapshot. -/
structure TrafficMapState where
  rollingWindowSize : Nat
  trafficMap : GoMap GoStr TrafficStats
  trafficMapLen : Int
  ipMACs : GoMap GoStr GoStr
deriving DecidableEq

/-- `TrafficMap.CountTraffic`: when the source IP has no MAC in the
current snapshot, report the flow active and record nothing; otherwise
load or create the `(group, MAC)` stats entry and count the packet. -/
def countTrafficTM (st : TrafficMapState) (cfg : ActivityMonitorConfig)
    (group ip : GoStr) (dir : Direction) (count packetLen now : Int) :
    TrafficMapState × Bool :=
  match mapLookup st.ipMACs ip with
  | none => (st, true)
  | some mac =>
      let key := getTrafficMapKey group mac
      let (stats, loaded) :=
        match mapLookup st.trafficMap key with
        | some s => (s, true)
        | none => (newTrafficStats now st.rollingWindowSize, false)
      let len2 := if loaded then st.trafficMapLen else st.trafficMapLen + 1
      let r := stats.countTraffic cfg now count packetLen dir
      ({ st with trafficMap := mapInsert st.trafficMap key r.1, trafficMapLen := len2 },
        r.2)

/-- `TrafficMap.UpdateSourceIpMACs`: store the new IP-to-MAC snapshot
and, only when the snapshot's size differs from the tracked entry count,
delete every entry whose key MAC is absent from the snapshot and whose
last-active time is older than `now - purgeAfter`
(`monitor/traffic_stats.go` lines 217-250). -/
def updateSourceIpMACs (st : TrafficMapState) (newData : GoMap GoStr GoStr)
    (now purgeAfter : Int) : TrafficMapState :=
  let st := { st with ipMACs := newData }
  let minAllowedTime := now - purgeAfter
  if (newData.length : Int) ≠ st.trafficMapLen then
    let keep : GoStr × TrafficStats → Bool := fun kv =>
      let keyMac := getTrafficMapMACFromKey kv.1
      let macExists := (mapValues newData).any (fun mac => keyMac == mac)
      macExists || decide (minAllowedTime ≤ kv.2.lastActiveTimeUTC)
    { st with trafficMap := st.trafficMap.filter keep
              trafficMapLen := st.trafficMapLen -
                ((st.trafficMap.filter (fun kv => !(keep kv))).length : Int) }
  else st

/-! ## Domain watcher (`group/domains.go`)

The resolver tick of `DomainWatcher.Start`: per-group resolution results
are merged into the retained IP-to-domain map with `maps.Copy`, and
`notifyReceivers` hands each receiver a copy of that map. -/

/-- The deduplication step of `resolveDomainsConcurrently`: the resolved
(ip, domain) pairs, in completion order, are folded into a map — the
last writer wins for an IP resolved under several domains. -/
def resolveDedup (allIPs : List (String × String)) : GoMap String String :=
  allIPs.foldl (fun acc p => mapInsert acc p.1 p.2) mapEmpty

/-- The destination-IP part of one `DomainWatcher.Start` tick: for each
group's resolution result `m`, `maps.Copy(dw.destIpDomains.Data, m)`.
The retained map is never cleared, so the result — which
`notifyReceivers` then publishes — is the previous map overlaid with
this tick's resolutions. -/
def domainWatcherTick (destIpDomains : GoMap String String)
    (resolvedPerGroup : List (GoMap String String)) : GoMap String String :=
  resolvedPerGroup.foldl (fun acc m => mapsCopy acc m) destIpDomains

/-! ## Net watcher (`group/net.go`)

`scanNetwork` and `scanNetworkAndNotify`.  The text parsing of the ARP
output (field splitting and the MAC regular expression) is abstracted:
the ARP command yields either an error or the list of already-sanitized
`(ip, mac)` pairs its accepted lines produce, in line order. -/

/-- A MAC with a display name (`models.NamedMAC`). -/
structure NamedMAC where
  mac : String
  name : String
deriving DecidableEq

/-- `config.GroupMACsConfig`.  `groups = none` models a Go nil map (the
zero value returned on a load error), which `scanNetwork` tests with
`gm.Groups == nil`. -/
structure GroupMACsConfig where
  groups : Option (GoMap String (List NamedMAC))
  unusedMACs : List NamedMAC
deriving DecidableEq

/-- Outcome of `groupMacsLoaderFunc` as `scanNetwork` distinguishes it:
file not found, any other error, or a loaded configuration. -/
inductive GroupMACsLoad
  | notFound
  | otherError
  | ok (gm : GroupMACsConfig)

/-- The match-all flag `scanNetwork` sets from the load outcome
(`group/net.go` lines 390-400): any load error turns match-all mode on. -/
def loadCausesMatchAll : GroupMACsLoad → Bool
  | GroupMACsLoad.ok _ => false
  | _ => true

/-- The configuration value `scanNetwork` continues with (zero value on
error). -/
def loadedGroupMACs : GroupMACsLoad → GroupMACsConfig
  | GroupMACsLoad.ok gm => gm
  | _ => ⟨none, []⟩

/-- The group list for one observed (ip, mac) after the join against the
configured group-MACs (`group/net.go` lines 443-459): every group whose
MAC list contains the MAC, appended to the IP's existing groups without
duplicates. -/
def joinGroupsForMAC (gmGroups : GoMap String (List NamedMAC)) (mac : String)
    (existingGroups : List String) : List String :=
  gmGroups.foldl
    (fun acc gkv =>
      gkv.2.foldl
        (fun acc2 gmac =>
          if gmac.mac = mac ∧ ¬ gkv.1 ∈ acc2 then acc2 ++ [gkv.1] else acc2)
        acc)
    existingGroups

/-- The per-line body of `scanNetwork`'s parse loop: record the MAC for
the IP; in match-all mode with no configured groups put the IP in the
`default` group, otherwise join the MAC against the configured groups. -/
def scanNetworkStep (matchAll : Bool) (gmGroups : Option (GoMap String (List NamedMAC)))
    (acc : GoMap String (List String) × GoMap String String) (entry : String × String) :
    GoMap String (List String) × GoMap String String :=
  let mim := mapInsert acc.2 entry.1 entry.2
  if matchAll ∧ gmGroups = none then
    (mapInsert acc.1 entry.1 ["default"], mim)
  else
    let existing := (mapLookup acc.1 entry.1).getD []
    let joined := joinGroupsForMAC (gmGroups.getD []) entry.2 existing
    (mapInsert acc.1 entry.1 joined, mim)

/-- `group.scanNetwork`: load the group-MACs file (any failure turns on
match-all mode), run the ARP command — on ARP error return nil maps —
then build the IP-to-groups and IP-to-MAC maps from the parsed lines.
The returned flag is the package variable `managerModeMatchAllSourceIps`
after the call. -/
def scanNetwork (load : GroupMACsLoad) (arp : Except Unit (List (String × String))) :
    Bool × Option (GoMap String (List String) × GoMap String String) :=
  let matchAll := loadCausesMatchAll load
  let gm := loadedGroupMACs load
  match arp with
  | Except.error _ => (matchAll, none)
  | Except.ok entries =>
      (matchAll, some (entries.foldl (scanNetworkStep matchAll gm.groups) (mapEmpty, mapEmpty)))

/-- What one `scanNetworkAndNotify` tick stores and publishes. -/
structure NetNotifyResult where
  sourceIpGroups : GoMap String (List String)
  publishedGroups : Option (GoMap String (List String))
  publishedMACs : Option (GoMap String String)
deriving DecidableEq

/-- `group.scanNetworkAndNotify` (`group/net.go` lines 355-385): scan,
then publish the IP-to-groups snapshot when match-all mode is on or it
differs element-wise from the previous snapshot (a nil scan result
behaves as the empty map), and publish the IP-to-MAC snapshot only when
it is non-empty. -/
def scanNetworkAndNotify (prev : GoMap String (List String)) (load : GroupMACsLoad)
    (arp : Except Unit (List (String × String))) : NetNotifyResult :=
  let r := scanNetwork load arp
  let newMig := (r.2.map Prod.fst).getD mapEmpty
  let newMim := (r.2.map Prod.snd).getD mapEmpty
  let publish := r.1 || !(mapEqual prev newMig)
  { sourceIpGroups := if publish then newMig else prev
    publishedGroups := if publish then some newMig else none
    publishedMACs := if newMim.length ≠ 0 then some newMim else none }

/-! ## Group-MACs configuration (`config/group-macs.go`)

`SaveGroupMACs` followed by `GetConfig`.  YAML marshalling of
`GroupMACsConfig` followed by unmarshalling is modelled as the identity
on the struct value (a nil `UnusedMACs` slice round-trips to nil, i.e.
the empty list). -/

/-- `models.NewMAC`: replace every colon with a hyphen and uppercase. -/
def newMACgo (mac : String) : String :=
  String.mk ((mac.toList.map (fun c => if c = ':' then '-' else c)).map Char.toUpper)

/-- `models.NewGroup`: remove every slash. -/
def newGroupGo (group : String) : String :=
  String.mk (group.toList.filter (fun c => ¬ c = '/'))

/-- The per-entry body of `SaveGroupMACs`'s loop (`config/group-macs.go`
lines 157-179): entries with a group and a MAC are appended to the
(sanitized) group's list; entries with only a MAC are appended to the
unused-MACs list; others are dropped.  Neither branch canonicalizes the
MAC. -/
def saveGroupMACsStep (acc : GoMap String (List NamedMAC) × List NamedMAC)
    (f : String × String × String) : GoMap String (List NamedMAC) × List NamedMAC :=
  let group := f.1
  let mac := f.2.1
  let name := f.2.2
  if ¬ group = "" ∧ ¬ mac = "" then
    let g := newGroupGo group
    let cur := (mapLookup acc.1 g).getD []
    (mapInsert acc.1 g (cur ++ [⟨mac, name⟩]), acc.2)
  else if ¬ mac = "" then
    (acc.1, acc.2 ++ [⟨mac, name⟩])
  else acc

/-- `groupMACs.SaveGroupMACs` followed by `groupMACs.GetConfig`: the
struct written to disk is `GroupMACsConfig{Groups: groups}` — the
`unusedMACs` list built by the loop is left out of the composite
literal, so the zero value (nil) is marshalled — and `GetConfig`
unmarshals it back. -/
def saveThenGetGroupMACs (flatGroupMACs : List (String × String × String)) :
    GroupMACsConfig :=
  let built := flatGroupMACs.foldl saveGroupMACsStep (mapEmpty, [])
  { groups := some built.1, unusedMACs := [] }

/-- What the round-trip claim expects the loop to preserve: the
unused-MACs list the loop actually builds. -/
def builtUnusedMACs (flatGroupMACs : List (String × String × String)) : List NamedMAC :=
  (flatGroupMACs.foldl saveGroupMACsStep (mapEmpty, [])).2

/-! ## Concrete instances used by witnesses and counterexamples -/

/-- A tracker configuration as handed to `newDeviceData`: one-hour
retention at one-minute granularity with a 90-minute start duration. -/
def c7cfg : TrackerConfig :=
  { granularity := minuteNs, retention := hourNs, threshold := 10 * minuteNs
    startDayInt := 0, startDuration := 90 * minuteNs, sampleSize := 0
    mode := TrackerMode.monitor, modeEndTime := 0 }

/-- The device `newDeviceData` builds from `c7cfg` at `now = 120min`:
the computed window start (150 min) lies in the future. -/
def c7dd : DeviceData :=
  { config := { c7cfg with sampleSize := 60 }
    samples := List.replicate 60 false
    windowStartTime := 150 * minuteNs }

/-- A well-aligned device: one-hour retention, one-minute granularity,
30-minute start duration, window start 30 min. -/
def c7good : DeviceData :=
  { config := { granularity := minuteNs, retention := hourNs, threshold := 10 * minuteNs
                startDayInt := 0, startDuration := 30 * minuteNs, sampleSize := 60
                mode := TrackerMode.monitor, modeEndTime := 0 }
    samples := List.replicate 60 false
    windowStartTime := 30 * minuteNs }

/-- A device in allow mode until t = 10. -/
def ddAllow : DeviceData :=
  { config := { granularity := minuteNs, retention := hourNs, threshold := minuteNs
                startDayInt := 0, startDuration := 0, sampleSize := 60
                mode := TrackerMode.allow, modeEndTime := 10 }
    samples := List.replicate 60 false
    windowStartTime := 0 }

/-- A tracker configuration with sample size 60 for the index-bounds
witness. -/
def c8cfg : TrackerConfig :=
  { granularity := minuteNs, retention := hourNs, threshold := minuteNs
    startDayInt := 0, startDuration := 0, sampleSize := 60
    mode := TrackerMode.monitor, modeEndTime := 0 }

/-- A filter configuration with a one-half drop probability. -/
def c1cfg : FilterConfig :=
  { packetDropPercentage := 1/2, packetDelayPercentage := 9/10
    packetDelayMs := 100000000, packetJitterMs := 50000000, packetDropUDP := true }

/-- A 20-byte IPv4 header whose protocol byte is 6 (TCP). -/
def c1payload : List Nat :=
  [69, 0, 0, 20, 0, 0, 0, 0, 64, 6, 0, 0, 192, 168, 1, 10, 142, 250, 1, 1]

/-- A group manager oracle knowing exactly the pair carried by
`c1payload`. -/
def c1gm (srcIp dstIp : List Nat) : Option (List String) :=
  if srcIp = [192, 168, 1, 10] ∧ dstIp = [142, 250, 1, 1] then some ["family"] else none

/-- A deterministic random stream: every draw is zero. -/
def c1rands : Nat → GroupRand := fun _ => ⟨0, 0, 0⟩

/-- An empty traffic-map state with the production rolling window size. -/
def tmEmpty : TrafficMapState :=
  { rollingWindowSize := 5, trafficMap := [], trafficMapLen := 0, ipMACs := [] }

/-- The default activity-monitor configuration (threshold logic off). -/
def amCfg0 : ActivityMonitorConfig := ⟨0, false⟩

/-- A traffic-map state holding one stale entry for MAC
`AA-BB-CC-DD-EE-01`, last active at time 0. -/
def c4state : TrafficMapState :=
  { rollingWindowSize := 5
    trafficMap := [(getTrafficMapKey (str "g1") (str "AA-BB-CC-DD-EE-01"), newTrafficStats 0 5)]
    trafficMapLen := 1
    ipMACs := [] }

/-- An IP-to-MAC snapshot of size one naming a different MAC. -/
def c4new : GoMap GoStr GoStr := [(str "192.168.1.7", str "AA-BB-CC-DD-EE-02")]

/-- The flat group-MAC list for the round-trip counterexample: one
colon-separated MAC in a group, one group-less named MAC. -/
def c6flat : List (String × String × String) :=
  [("g", "aa:bb:cc:dd:ee:ff", ""), ("", "11-22-33-44-55-66", "spare")]

/-! ## Helper lemmas -/

theorem neg_tmod_eq (a b : Int) : (-a).tmod b = -(a.tmod b) := by
  rw [Int.tmod_def, Int.tmod_def, Int.neg_tdiv]
  ring

theorem tmod_lower_bound (a : Int) {b : Int} (hb : 0 < b) : -b < a.tmod b := by
  rcases le_or_lt 0 a with h | h
  · have := Int.tmod_nonneg b h
    omega
  · have h1 : a.tmod b = -((-a).tmod b) := by rw [neg_tmod_eq]; ring
    have h2 : (-a).tmod b < b := Int.tmod_lt_of_pos _ hb
    omega

theorem double_tmod_range (e : Int) {s : Int} (hs : 0 < s) :
    0 ≤ (e.tmod s + s).tmod s ∧ (e.tmod s + s).tmod s < s := by
  have h1 : -s < e.tmod s := tmod_lower_bound e hs
  have h0 : 0 ≤ e.tmod s + s := by omega
  exact ⟨Int.tmod_nonneg _ h0, Int.tmod_lt_of_pos _ hs⟩

theorem syncWindow_config (dd : DeviceData) (now : Int) :
    (syncWindow dd now).config = dd.config := by
  rw [syncWindow]
  split <;> rfl

/-! ## C8: the sample-index computation -/

/-- C8.  For a device configuration with `SampleSize ≥ 1` and a non-zero
granularity (both guaranteed by device creation), `getIndex` is total and
equals `((elapsed mod SampleSize) + SampleSize) mod SampleSize` with
`elapsed = (now - windowStartTime) / Granularity` (Go truncated division
and modulus), the result lies in `[0, SampleSize)` — also when `now`
precedes `bufferStart` (clock regression) — and the subsequent
`samples[index]` access is in bounds whenever the buffer has `SampleSize`
elements.  Totality needs `SampleSize ≥ 1`: at `SampleSize = 0` the Go
modulus panics (`getIndex` is `none`). -/
theorem C8_getIndex_bounds (cfg : TrackerConfig) (now bufferStart : Int)
    (hS : 1 ≤ cfg.sampleSize) (hG : cfg.granularity ≠ 0) :
    getIndex cfg now bufferStart =
      some ((((now - bufferStart).tdiv cfg.granularity).tmod cfg.sampleSize +
        cfg.sampleSize).tmod cfg.sampleSize) ∧
    ∀ i, getIndex cfg now bufferStart = some i →
      0 ≤ i ∧ i < cfg.sampleSize ∧
      ∀ samples : List Bool, (samples.length : Int) = cfg.sampleSize →
        i.toNat < samples.length := by
  have hS0 : ¬ (cfg.granularity = 0 ∨ cfg.sampleSize = 0) := by
    push_neg
    exact ⟨hG, by omega⟩
  have hgi : getIndex cfg now bufferStart =
      some ((((now - bufferStart).tdiv cfg.granularity).tmod cfg.sampleSize +
        cfg.sampleSize).tmod cfg.sampleSize) := by
    rw [getIndex, if_neg hS0]
  refine ⟨hgi, ?_⟩
  intro i hi
  rw [hgi] at hi
  have hv := Option.some.inj hi
  obtain ⟨h0, h1⟩ := double_tmod_range ((now - bufferStart).tdiv cfg.granularity)
    (show 0 < cfg.sampleSize by omega)
  refine ⟨by omega, by omega, ?_⟩
  intro samples hlen
  omega

theorem C8_witness :
    (1 ≤ c8cfg.sampleSize ∧ c8cfg.granularity ≠ 0) ∧
    ∀ i, getIndex c8cfg (5 * minuteNs) (100 * minuteNs) = some i →
      0 ≤ i ∧ i < c8cfg.sampleSize ∧
      ∀ samples : List Bool, (samples.length : Int) = c8cfg.sampleSize →
        i.toNat < samples.length :=
  ⟨⟨by decide, by decide⟩,
    (C8_getIndex_bounds c8cfg (5 * minuteNs) (100 * minuteNs) (by decide) (by decide)).2⟩

/-! ## C2: HasExceededThreshold -/

/-- C2.  `HasExceededThreshold` for a loaded device: false when the mode
is Allow and `now` is before `ModeEndTime`; true when the mode is Block
and `now` is before `ModeEndTime`; otherwise it synchronizes the
retention window and returns true iff
`count_true(samples) * Granularity ≥ Threshold`. -/
theorem C2_hasExceededThreshold (dd : DeviceData) (now : Int) :
    ((dd.config.mode = TrackerMode.allow ∧ now < dd.config.modeEndTime) →
      hasExceededThresholdDD dd now = (dd, false)) ∧
    ((dd.config.mode = TrackerMode.block ∧ now < dd.config.modeEndTime) →
      hasExceededThresholdDD dd now = (dd, true)) ∧
    (¬ (dd.config.mode = TrackerMode.allow ∧ now < dd.config.modeEndTime) →
      ¬ (dd.config.mode = TrackerMode.block ∧ now < dd.config.modeEndTime) →
      (hasExceededThresholdDD dd now).1 = syncWindow dd now ∧
      ((hasExceededThresholdDD dd now).2 = true ↔
        dd.config.threshold ≤
          ((syncWindow dd now).samples.count true : Int) * dd.config.granularity)) := by
  refine ⟨?_, ?_, ?_⟩
  · intro h
    rw [hasExceededThresholdDD, if_pos h]
  · intro h
    have hna : ¬ (dd.config.mode = TrackerMode.allow ∧ now < dd.config.modeEndTime) := by
      rintro ⟨h1, _⟩
      rw [h1] at h
      exact absurd h.1 (by decide)
    rw [hasExceededThresholdDD, if_neg hna, if_pos h]
  · intro h1 h2
    rw [hasExceededThresholdDD, if_neg h1, if_neg h2]
    refine ⟨rfl, ?_⟩
    show decide _ = true ↔ _
    rw [decide_eq_true_iff, syncWindow_config]

theorem C2_witness :
    (ddAllow.config.mode = TrackerMode.allow ∧ (5 : Int) < ddAllow.config.modeEndTime) ∧
    hasExceededThresholdDD ddAllow 5 = (ddAllow, false) :=
  ⟨⟨rfl, by decide⟩, (C2_hasExceededThreshold ddAllow 5).1 ⟨rfl, by decide⟩⟩

/-! ## C7: the window invariant -/

theorem calculateWindow_subdaily (cfg : TrackerConfig) (now : Int)
    (hG : 0 < cfg.granularity) (hGR : cfg.granularity ∣ cfg.retention)
    (hGS : cfg.granularity ∣ cfg.startDuration)
    (hSD0 : 0 ≤ cfg.startDuration) (hSDR : cfg.startDuration < cfg.retention)
    (hsub : cfg.retention < dayNs) :
    (calculateWindow cfg now).1 ≤ now ∧
    now < (calculateWindow cfg now).1 + cfg.retention := by
  have hR : 0 < cfg.retention := lt_of_le_of_lt hSD0 hSDR
  have hdw : dayNs < weekNs := by norm_num [dayNs, weekNs, hourNs, minuteNs]
  have hw : ¬ weekNs ≤ cfg.retention := by omega
  have hd : ¬ dayNs ≤ cfg.retention := by omega
  have hbase2 : goTruncate now cfg.retention = now - now.emod cfg.retention := by
    rw [goTruncate, if_pos hR]
  have hmod_eq : now.emod cfg.retention = now % cfg.retention := rfl
  have hemod0 : 0 ≤ now.emod cfg.retention := Int.emod_nonneg now (ne_of_gt hR)
  have hemod1 : now.emod cfg.retention < cfg.retention := Int.emod_lt_of_pos now hR
  have hGbase : cfg.granularity ∣ goTruncate now cfg.retention := by
    rw [hbase2]
    have hdiv : now - now.emod cfg.retention = cfg.retention * (now / cfg.retention) := by
      have := Int.ediv_add_emod now cfg.retention
      omega
    rw [hdiv]
    exact hGR.mul_right _
  have halign : goTruncate (goTruncate now cfg.retention + cfg.startDuration)
      cfg.granularity = goTruncate now cfg.retention + cfg.startDuration := by
    rw [goTruncate, if_pos hG]
    have h0 : (goTruncate now cfg.retention + cfg.startDuration).emod cfg.granularity = 0 :=
      Int.emod_eq_zero_of_dvd (dvd_add hGbase hGS)
    omega
  have halign2 : goTruncate (goTruncate now cfg.retention - cfg.retention +
      cfg.startDuration) cfg.granularity =
      goTruncate now cfg.retention - cfg.retention + cfg.startDuration := by
    rw [goTruncate, if_pos hG]
    have h0 : (goTruncate now cfg.retention - cfg.retention +
        cfg.startDuration).emod cfg.granularity = 0 :=
      Int.emod_eq_zero_of_dvd (dvd_add (dvd_sub hGbase hGR) hGS)
    omega
  rw [calculateWindow]
  rw [if_neg hw, if_neg hd]
  simp only [halign, halign2]
  split_ifs with hlt
  · constructor
    · omega
    · omega
  · constructor
    · omega
    · omega

theorem syncWindow_window (dd : DeviceData) (now : Int)
    (hG : 0 < dd.config.granularity)
    (hGR : dd.config.granularity ∣ dd.config.retention)
    (hGS : dd.config.granularity ∣ dd.config.startDuration)
    (hSD0 : 0 ≤ dd.config.startDuration)
    (hSDR : dd.config.startDuration < dd.config.retention)
    (hsub : dd.config.retention < dayNs)
    (hS : dd.config.sampleSize = dd.config.retention.tdiv dd.config.granularity)
    (hws : dd.windowStartTime ≤ now) :
    (syncWindow dd now).windowStartTime ≤ now ∧
    now < (syncWindow dd now).windowStartTime + dd.config.retention := by
  have hSG : dd.config.sampleSize * dd.config.granularity = dd.config.retention := by
    rw [hS, Int.tdiv_eq_ediv_of_dvd hGR]
    exact Int.ediv_mul_cancel hGR
  rw [syncWindow]
  split_ifs with h
  · exact calculateWindow_subdaily dd.config now hG hGR hGS hSD0 hSDR hsub
  · push_neg at h
    obtain ⟨h1, h2⟩ := h
    refine ⟨hws, ?_⟩
    have ha : 0 ≤ now - dd.windowStartTime := by omega
    have htd : (now - dd.windowStartTime).tdiv dd.config.granularity =
        (now - dd.windowStartTime) / dd.config.granularity :=
      Int.tdiv_eq_ediv ha (le_of_lt hG)
    have hlt : (now - dd.windowStartTime) / dd.config.granularity <
        dd.config.sampleSize := by omega
    have := (Int.ediv_lt_iff_lt_mul hG).1 hlt
    omega

theorem syncWindow_count (dd : DeviceData) (now : Int)
    (hlen : (dd.samples.length : Int) = dd.config.sampleSize) :
    ((syncWindow dd now).samples.count true : Int) ≤ dd.config.sampleSize := by
  rw [syncWindow]
  split_ifs
  · have h0 : (dd.samples.map (fun _ => false)).count true = 0 := by
      simp [List.count_eq_zero]
    have hlen0 : (0 : Int) ≤ dd.samples.length := Int.ofNat_nonneg _
    simp only [h0]
    omega
  · have := dd.samples.count_le_length true
    omega

/-- C7 (amended).  After `syncWindow` (the window-synchronizing step of
`AddSample` with `active = true` in Monitor mode and of
`HasExceededThreshold` outside an unexpired Allow/Block mode), the
device satisfies `count_true(samples) ≤ SampleSize` and
`windowStartTime ≤ now < windowStartTime + Retention` — PROVIDED the
configuration is sub-daily (`Retention < 24h`) with a positive
granularity dividing both retention and start duration,
`0 ≤ StartDuration < Retention`, `SampleSize = Retention / Granularity`
as device creation sets it, and the window start before the sync did not
lie in the future.  The original claim, quantifying over every
configuration reachable through device creation, is false:
`newDeviceData` accepts `StartDuration ≥ Retention`, for which the
computed window start lies in the future (see the counterexample). -/
theorem C7_amended (dd : DeviceData) (now : Int)
    (hG : 0 < dd.config.granularity)
    (hGR : dd.config.granularity ∣ dd.config.retention)
    (hGS : dd.config.granularity ∣ dd.config.startDuration)
    (hSD0 : 0 ≤ dd.config.startDuration)
    (hSDR : dd.config.startDuration < dd.config.retention)
    (hsub : dd.config.retention < dayNs)
    (hS : dd.config.sampleSize = dd.config.retention.tdiv dd.config.granularity)
    (hlen : (dd.samples.length : Int) = dd.config.sampleSize)
    (hws : dd.windowStartTime ≤ now) :
    ((syncWindow dd now).samples.count true : Int) ≤ dd.config.sampleSize ∧
    (syncWindow dd now).windowStartTime ≤ now ∧
    now < (syncWindow dd now).windowStartTime + dd.config.retention :=
  ⟨syncWindow_count dd now hlen,
    (syncWindow_window dd now hG hGR hGS hSD0 hSDR hsub hS hws).1,
    (syncWindow_window dd now hG hGR hGS hSD0 hSDR hsub hS hws).2⟩

/-- C7 counterexample.  With retention 1h, granularity 1min and start
duration 90min (&ge; retention) — a configuration `newDeviceData`
accepts — the device created at `now = 120min` gets window start 150min,
and `HasExceededThreshold` at that same instant leaves the window start
at 150min: `windowStartTime ≤ now` fails after a window-synchronizing
operation. -/
theorem C7_counterexample :
    newDeviceData (120 * minuteNs) c7cfg = some c7dd ∧
    (hasExceededThresholdDD c7dd (120 * minuteNs)).1.windowStartTime = 150 * minuteNs ∧
    ¬ ((hasExceededThresholdDD c7dd (120 * minuteNs)).1.windowStartTime ≤
        120 * minuteNs) :=
  ⟨by decide, by decide, by decide⟩

theorem C7_witness :
    (0 < c7good.config.granularity ∧
      c7good.config.granularity ∣ c7good.config.retention ∧
      c7good.config.granularity ∣ c7good.config.startDuration ∧
      0 ≤ c7good.config.startDuration ∧
      c7good.config.startDuration < c7good.config.retention ∧
      c7good.config.retention < dayNs ∧
      c7good.config.sampleSize = c7good.config.retention.tdiv c7good.config.granularity ∧
      (c7good.samples.length : Int) = c7good.config.sampleSize ∧
      c7good.windowStartTime ≤ 45 * minuteNs) ∧
    ((syncWindow c7good (45 * minuteNs)).samples.count true : Int) ≤
        c7good.config.sampleSize ∧
    (syncWindow c7good (45 * minuteNs)).windowStartTime ≤ 45 * minuteNs ∧
    45 * minuteNs < (syncWindow c7good (45 * minuteNs)).windowStartTime +
        c7good.config.retention :=
  ⟨⟨by decide, ⟨60, by decide⟩, ⟨30, by decide⟩, by decide, by decide, by decide,
      by decide, by decide, by decide⟩,
    C7_amended c7good (45 * minuteNs) (by decide) ⟨60, by decide⟩ ⟨30, by decide⟩
      (by decide) (by decide) (by decide) (by decide) (by decide) (by decide)⟩

/-! ## C1: the packet verdict -/

theorem ratTrunc_nonpos {q : ℚ} (h : q ≤ 0) : ratTrunc q ≤ 0 := by
  rw [ratTrunc]
  have hnum : q.num ≤ 0 := Rat.num_nonpos.2 h
  have hden : (0 : Int) ≤ (q.den : Int) := Int.ofNat_nonneg _
  have := Int.tdiv_nonneg (a := -q.num) (b := (q.den : Int)) (by omega) hden
  rw [Int.neg_tdiv] at this
  omega

theorem ratTrunc_le_of_nonneg {q : ℚ} (h : 0 ≤ q) : (ratTrunc q : ℚ) ≤ q := by
  rw [ratTrunc]
  have hnum : 0 ≤ q.num := Rat.num_nonneg.2 h
  have htd : q.num.tdiv (q.den : Int) = q.num / (q.den : Int) :=
    Int.tdiv_eq_ediv hnum (Int.ofNat_nonneg _)
  rw [htd, ← Rat.floor_def]
  exact Int.floor_le q

theorem ratTrunc_le (q : ℚ) (j : Int) (hq : q ≤ (j : ℚ)) (hj : 0 ≤ j) :
    ratTrunc q ≤ j := by
  rcases le_or_lt 0 q with h | h
  · have h1 : (ratTrunc q : ℚ) ≤ (j : ℚ) := le_trans (ratTrunc_le_of_nonneg h) hq
    exact_mod_cast h1
  · exact le_trans (ratTrunc_nonpos (le_of_lt h)) hj

theorem applyJitterGo_le (base jr : Int) (u : ℚ) (_hu0 : 0 ≤ u) (hu1 : u < 1)
    (hb : 0 ≤ base) (hj : 0 ≤ jr) :
    applyJitterGo base jr u ≤ base + jr := by
  rw [applyJitterGo]
  have hq : (u * 2 - 1) * (jr : ℚ) ≤ (jr : ℚ) := by
    have h1 : u * 2 - 1 ≤ 1 := by linarith
    have h2 : (0 : ℚ) ≤ (jr : ℚ) := by exact_mod_cast hj
    nlinarith
  have htr : ratTrunc ((u * 2 - 1) * (jr : ℚ)) ≤ jr := ratTrunc_le _ jr hq hj
  split_ifs with h
  · omega
  · omega

theorem processGroups_length (cfg : FilterConfig) (isUDP : Bool)
    (active exceeded : String → Bool) (rands : Nat → GroupRand) :
    ∀ (gs : List String) (i : Nat) (v : Verdict),
      (processGroups cfg isUDP active exceeded rands gs i v).2.1 = gs ∧
      (processGroups cfg isUDP active exceeded rands gs i v).2.2.1 =
        gs.map (fun g => (g, active g)) := by
  intro gs
  induction gs with
  | nil => intro i v; exact ⟨rfl, rfl⟩
  | cons g gs ih =>
      intro i v
      simp only [processGroups, List.map_cons]
      refine ⟨?_, ?_⟩
      · rw [(ih (i + 1) _).1]
      · rw [(ih (i + 1) _).2]

theorem processGroups_verdict (cfg : FilterConfig) (isUDP : Bool)
    (active exceeded : String → Bool) (rands : Nat → GroupRand) :
    ∀ (gs : List String) (i : Nat) (v : Verdict),
      ((processGroups cfg isUDP active exceeded rands gs i v).1 = Verdict.nfDrop ↔
        v = Verdict.nfDrop ∨
          Decision.drop ∈ groupDecisions cfg isUDP exceeded rands gs i) := by
  intro gs
  induction gs with
  | nil =>
      intro i v
      simp [processGroups, groupDecisions]
  | cons g gs ih =>
      intro i v
      simp only [processGroups, groupDecisions, List.mem_cons]
      rw [ih]
      by_cases hd : groupDecision cfg isUDP (exceeded g) (rands i) = Decision.drop
      · simp [hd]
      · have hd2 : ¬ Decision.drop = groupDecision cfg isUDP (exceeded g) (rands i) :=
          fun h => hd h.symm
        simp [hd, hd2]

theorem processGroups_sleeps (cfg : FilterConfig) (isUDP : Bool)
    (active exceeded : String → Bool) (rands : Nat → GroupRand) :
    ∀ (gs : List String) (i : Nat) (v : Verdict),
      ∀ s ∈ (processGroups cfg isUDP active exceeded rands gs i v).2.2.2,
        ∃ n, s = applyJitterGo cfg.packetDelayMs cfg.packetJitterMs (rands n).u3 := by
  intro gs
  induction gs with
  | nil => intro i v s hs; simp [processGroups] at hs
  | cons g gs ih =>
      intro i v s hs
      simp only [processGroups, List.mem_append] at hs
      rcases hs with hs | hs
      · refine ⟨i, ?_⟩
        by_cases hd : groupDecision cfg isUDP (exceeded g) (rands i) = Decision.delay
        · simp [hd] at hs
          exact hs
        · simp [hd] at hs
      · exact ih (i + 1) _ s hs

/-- C1.  For a queued packet with a parseable IPv4 header whose computed
(src, dst) pair the group manager knows: the handler emits exactly one
verdict; the verdict is `NfAccept` or `NfDrop`; it is `NfDrop` iff the
degradation policy decided drop for at least one matched group (so drop
overrides delay and accept); and every delay sleep is bounded by
`PacketDelayMs + PacketJitterMs` (after which the packet is accepted),
given random draws in `[0, 1)` and non-negative configured delays. -/
theorem C1_packet_verdict (cfg : FilterConfig) (direction : Direction)
    (gm : List Nat → List Nat → Option (List String))
    (active exceeded : String → Bool) (rands : Nat → GroupRand)
    (p : List Nat) (gs : List String)
    (hlen : ¬ p.length < 20)
    (hgm : gm (handlerSrcDst direction ((p.drop 12).take 4, (p.drop 16).take 4)).1
        (handlerSrcDst direction ((p.drop 12).take 4, (p.drop 16).take 4)).2 = some gs)
    (hr : ∀ n, 0 ≤ (rands n).u3 ∧ (rands n).u3 < 1)
    (hd : 0 ≤ cfg.packetDelayMs) (hj : 0 ≤ cfg.packetJitterMs) :
    (fnPacketHandler cfg direction gm active exceeded rands (some p)).verdicts.length = 1 ∧
    (∀ v ∈ (fnPacketHandler cfg direction gm active exceeded rands (some p)).verdicts,
      v = Verdict.nfAccept ∨ v = Verdict.nfDrop) ∧
    ((fnPacketHandler cfg direction gm active exceeded rands (some p)).verdicts =
        [Verdict.nfDrop] ↔
      Decision.drop ∈ groupDecisions cfg (p.getD 9 0 == 17) exceeded rands gs 0) ∧
    (∀ s ∈ (fnPacketHandler cfg direction gm active exceeded rands (some p)).sleepsNs,
      s ≤ cfg.packetDelayMs + cfg.packetJitterMs) := by
  have hget : getPacketIPs (some p) =
      Except.ok (((p.drop 12).take 4, (p.drop 16).take 4), p.length) := by
    rw [getPacketIPs, if_neg hlen]
  have htr : fnPacketHandler cfg direction gm active exceeded rands (some p) =
      { verdicts := [(processGroups cfg (p.getD 9 0 == 17) active exceeded rands gs 0
            Verdict.nfAccept).1]
        logs := gs.map (fun _ => ⟨LogLevel.debug, "handled packet"⟩)
        gmConsulted := true
        countTrafficCalls := (processGroups cfg (p.getD 9 0 == 17) active exceeded rands
            gs 0 Verdict.nfAccept).2.1
        addSampleCalls := (processGroups cfg (p.getD 9 0 == 17) active exceeded rands
            gs 0 Verdict.nfAccept).2.2.1
        sleepsNs := (processGroups cfg (p.getD 9 0 == 17) active exceeded rands
            gs 0 Verdict.nfAccept).2.2.2
        retval := 0 } := by
    rw [fnPacketHandler, hget]
    simp only [Option.getD_some, hgm]
  rw [htr]
  refine ⟨rfl, ?_, ?_, ?_⟩
  · intro v hv
    cases v
    · exact Or.inl rfl
    · exact Or.inr rfl
  · have hiff := processGroups_verdict cfg (p.getD 9 0 == 17) active exceeded rands gs 0
      Verdict.nfAccept
    constructor
    · intro hv
      have h1 : (processGroups cfg (p.getD 9 0 == 17) active exceeded rands gs 0
          Verdict.nfAccept).1 = Verdict.nfDrop := List.head_eq_of_cons_eq hv
      rcases hiff.1 h1 with h | h
      · exact absurd h (by decide)
      · exact h
    · intro hmem
      have h1 := hiff.2 (Or.inr hmem)
      rw [h1]
  · intro s hs
    obtain ⟨n, hn⟩ := processGroups_sleeps cfg (p.getD 9 0 == 17) active exceeded rands
      gs 0 Verdict.nfAccept s hs
    rw [hn]
    exact applyJitterGo_le cfg.packetDelayMs cfg.packetJitterMs (rands n).u3
      (hr n).1 (hr n).2 hd hj

theorem C1_witness :
    (¬ c1payload.length < 20 ∧
      c1gm (handlerSrcDst Direction.egress
          ((c1payload.drop 12).take 4, (c1payload.drop 16).take 4)).1
        (handlerSrcDst Direction.egress
          ((c1payload.drop 12).take 4, (c1payload.drop 16).take 4)).2 = some ["family"] ∧
      (∀ n, 0 ≤ (c1rands n).u3 ∧ (c1rands n).u3 < 1) ∧
      0 ≤ c1cfg.packetDelayMs ∧ 0 ≤ c1cfg.packetJitterMs) ∧
    ((fnPacketHandler c1cfg Direction.egress c1gm (fun _ => true) (fun _ => true)
        c1rands (some c1payload)).verdicts.length = 1 ∧
      (∀ v ∈ (fnPacketHandler c1cfg Direction.egress c1gm (fun _ => true) (fun _ => true)
          c1rands (some c1payload)).verdicts,
        v = Verdict.nfAccept ∨ v = Verdict.nfDrop) ∧
      ((fnPacketHandler c1cfg Direction.egress c1gm (fun _ => true) (fun _ => true)
          c1rands (some c1payload)).verdicts = [Verdict.nfDrop] ↔
        Decision.drop ∈ groupDecisions c1cfg (c1payload.getD 9 0 == 17) (fun _ => true)
          c1rands ["family"] 0) ∧
      (∀ s ∈ (fnPacketHandler c1cfg Direction.egress c1gm (fun _ => true) (fun _ => true)
          c1rands (some c1payload)).sleepsNs,
        s ≤ c1cfg.packetDelayMs + c1cfg.packetJitterMs)) :=
  ⟨⟨by decide, by decide, fun n => ⟨le_refl 0, by norm_num [c1rands]⟩,
      by decide, by decide⟩,
    C1_packet_verdict c1cfg Direction.egress c1gm (fun _ => true) (fun _ => true)
      c1rands c1payload ["family"] (by decide) (by decide)
      (fun n => ⟨le_refl 0, by norm_num [c1rands]⟩) (by decide) (by decide)⟩

/-! ## C9: packet parse failure -/

/-- C9 (amended).  For a queued packet whose payload is nil or shorter
than 20 bytes, the handler accepts the packet and returns without
consulting the group manager, counting traffic or adding usage samples —
and the parse failure is logged at ERROR level (the original claim said
debug level). -/
theorem C9_parse_failure (cfg : FilterConfig) (direction : Direction)
    (gm : List Nat → List Nat → Option (List String))
    (active exceeded : String → Bool) (rands : Nat → GroupRand)
    (payload : Option (List Nat))
    (h : payload = none ∨ ∃ p, payload = some p ∧ p.length < 20) :
    fnPacketHandler cfg direction gm active exceeded rands payload =
      { verdicts := [Verdict.nfAccept]
        logs := [⟨LogLevel.error, "Error getting packet data"⟩]
        gmConsulted := false
        countTrafficCalls := []
        addSampleCalls := []
        sleepsNs := []
        retval := 0 } := by
  rcases h with h | ⟨p, hp, hlen⟩
  · rw [h]
    rfl
  · rw [hp, fnPacketHandler, getPacketIPs, if_pos hlen]

/-- C9 counterexample.  On a nil payload the handler's only log event for
the parse failure carries the ERROR level, not the debug level the claim
states. -/
theorem C9_counterexample :
    (fnPacketHandler c1cfg Direction.egress c1gm (fun _ => true) (fun _ => true)
        c1rands none).logs = [⟨LogLevel.error, "Error getting packet data"⟩] ∧
    ¬ LogLevel.error = LogLevel.debug :=
  ⟨rfl, by decide⟩

theorem C9_witness :
    ((none : Option (List Nat)) = none ∨
      ∃ p, (none : Option (List Nat)) = some p ∧ p.length < 20) ∧
    fnPacketHandler c1cfg Direction.ingress c1gm (fun _ => true) (fun _ => true)
        c1rands none =
      { verdicts := [Verdict.nfAccept]
        logs := [⟨LogLevel.error, "Error getting packet data"⟩]
        gmConsulted := false
        countTrafficCalls := []
        addSampleCalls := []
        sleepsNs := []
        retval := 0 } :=
  ⟨Or.inl rfl,
    C9_parse_failure c1cfg Direction.ingress c1gm (fun _ => true) (fun _ => true)
      c1rands none (Or.inl rfl)⟩

/-! ## C10: CountTraffic with an unknown source IP -/

/-- C10.  `CountTraffic(group, ip, direction, count, packetLen)` with an
IP absent from the current IP-to-MAC snapshot returns true (flow
reported active) and leaves the traffic map unchanged: no statistics are
recorded for any (group, MAC) key. -/
theorem C10_countTraffic_unknown_ip (st : TrafficMapState) (cfg : ActivityMonitorConfig)
    (group ip : GoStr) (dir : Direction) (count packetLen now : Int)
    (h : mapLookup st.ipMACs ip = none) :
    countTrafficTM st cfg group ip dir count packetLen now = (st, true) := by
  rw [countTrafficTM, h]

theorem C10_witness :
    mapLookup tmEmpty.ipMACs (str "192.168.1.9") = none ∧
    countTrafficTM tmEmpty amCfg0 (str "g1") (str "192.168.1.9") Direction.ingress
      1 1500 0 = (tmEmpty, true) :=
  ⟨rfl,
    C10_countTraffic_unknown_ip tmEmpty amCfg0 (str "g1") (str "192.168.1.9")
      Direction.ingress 1 1500 0 rfl⟩

/-! ## C4: UpdateSourceIpMACs purge -/

/-- C4 (amended).  After `UpdateSourceIpMACs(newMap)`, no traffic-stats
entry remains whose key MAC is absent from `newMap` and whose
`lastActiveTimeUtc` is older than `now - purgeHorizon` — PROVIDED the
size of `newMap` differs from the tracked entry count
(`trafficMapLen`).  When the sizes coincide the purge loop is skipped
entirely and such entries survive, which refutes the original
unconditional claim. -/
theorem C4_purge (st : TrafficMapState) (newData : GoMap GoStr GoStr)
    (now purgeAfter : Int)
    (h : (newData.length : Int) ≠ st.trafficMapLen) :
    ∀ kv ∈ (updateSourceIpMACs st newData now purgeAfter).trafficMap,
      (mapValues newData).any (fun mac => getTrafficMapMACFromKey kv.1 == mac) = true ∨
      now - purgeAfter ≤ kv.2.lastActiveTimeUTC := by
  intro kv hkv
  rw [updateSourceIpMACs] at hkv
  simp only [if_pos h] at hkv
  have hmem := List.mem_filter.1 hkv
  have hkeep := hmem.2
  simp only [Bool.or_eq_true] at hkeep
  rcases hkeep with hone | htwo
  · exact Or.inl hone
  · exact Or.inr (of_decide_eq_true htwo)

/-- C4 counterexample.  A single stale entry (MAC `AA-BB-CC-DD-EE-01`,
last active at 0) survives `UpdateSourceIpMACs` with a size-one snapshot
naming a different MAC, because `len(newMap) = trafficMapLen` skips the
purge: the claim's post-condition fails. -/
theorem C4_counterexample :
    (updateSourceIpMACs c4state c4new (10 * minuteNs) minuteNs).trafficMap.any
      (fun kv =>
        !((mapValues c4new).any (fun mac => getTrafficMapMACFromKey kv.1 == mac)) &&
        decide (kv.2.lastActiveTimeUTC < 10 * minuteNs - minuteNs)) = true := by
  decide

theorem C4_witness :
    ((([] : GoMap GoStr GoStr).length : Int) ≠ c4state.trafficMapLen) ∧
    ∀ kv ∈ (updateSourceIpMACs c4state [] (10 * minuteNs) minuteNs).trafficMap,
      (mapValues ([] : GoMap GoStr GoStr)).any
        (fun mac => getTrafficMapMACFromKey kv.1 == mac) = true ∨
      10 * minuteNs - minuteNs ≤ kv.2.lastActiveTimeUTC :=
  ⟨by decide, C4_purge c4state [] (10 * minuteNs) minuteNs (by decide)⟩

/-! ## C5: net-watcher tick with ARP failure -/

/-- C5 (amended).  On a tick in which the ARP command fails, no IP-to-MAC
update is published; but an IP-to-Groups update (the empty map, since the
nil scan result behaves as an empty snapshot) IS published exactly when
match-all mode is active or the previous snapshot was non-empty.  Only
when match-all mode is off and the previous snapshot was already empty is
nothing published — the original claim said nothing is ever published. -/
theorem C5_arp_failure (prev : GoMap String (List String)) (load : GroupMACsLoad) :
    (scanNetworkAndNotify prev load (Except.error ())).publishedMACs = none ∧
    (scanNetworkAndNotify prev load (Except.error ())).publishedGroups =
      (if loadCausesMatchAll load || !(mapEqual prev mapEmpty) then some mapEmpty
       else none) := by
  constructor
  · rw [scanNetworkAndNotify, scanNetwork]
    simp [mapEmpty]
  · rw [scanNetworkAndNotify, scanNetwork]
    simp [mapEmpty]

/-- C5 counterexample.  With a non-empty previous snapshot and a
successful configuration load (match-all off), an ARP error still
publishes an IP-to-Groups update — the empty map — to the registered
receivers, contradicting the claim that nothing is published. -/
theorem C5_counterexample :
    (scanNetworkAndNotify [("192.168.1.10", ["group1"])]
        (GroupMACsLoad.ok ⟨some [], []⟩) (Except.error ())).publishedGroups =
      some mapEmpty ∧
    ¬ (scanNetworkAndNotify [("192.168.1.10", ["group1"])]
        (GroupMACsLoad.ok ⟨some [], []⟩) (Except.error ())).publishedGroups = none :=
  ⟨rfl, by decide⟩

/-! ## C3: the destination IP table across resolver ticks -/

/-- C3.  The destination IP table is NOT fully replaced on a resolver
tick: `maps.Copy` merges each tick's resolutions into the retained map,
so after a first tick resolving `142.250.1.1 -> youtube.com` and a
second tick resolving only `172.217.2.2 -> googlevideo.com`, the
published table still contains the stale first IP (the TODO at the top
of `loadGroupDomains` records that full replacement was intended).
Within a single tick, last-writer-wins on IP collisions does hold. -/
theorem C3_stale_ip_retained :
    mapLookup (domainWatcherTick
        (domainWatcherTick mapEmpty [resolveDedup [("142.250.1.1", "youtube.com")]])
        [resolveDedup [("172.217.2.2", "googlevideo.com")]])
      "142.250.1.1" = some "youtube.com" ∧
    mapLookup (domainWatcherTick
        (domainWatcherTick mapEmpty [resolveDedup [("142.250.1.1", "youtube.com")]])
        [resolveDedup [("172.217.2.2", "googlevideo.com")]])
      "172.217.2.2" = some "googlevideo.com" ∧
    mapLookup (resolveDedup [("9.9.9.9", "a.example"), ("9.9.9.9", "b.example")])
      "9.9.9.9" = some "b.example" := by
  refine ⟨by decide, by decide, by decide⟩

/-! ## C6: the group-MACs round trip -/

/-- C6.  Saving a flat group-MAC list with `SaveGroupMACs` and re-reading
with `GetConfig` does NOT yield the same `{groups, unusedMACs}` content:
the unused-MACs list the save loop builds is dropped (the marshalled
struct literal omits the `UnusedMACs` field), and MACs are stored
verbatim — a colon-separated lowercase MAC is not canonicalized to the
uppercase hyphen-separated form `models.NewMAC` produces. -/
theorem C6_roundtrip_loses_data :
    (saveThenGetGroupMACs c6flat).unusedMACs = [] ∧
    builtUnusedMACs c6flat = [⟨"11-22-33-44-55-66", "spare"⟩] ∧
    mapLookup ((saveThenGetGroupMACs c6flat).groups.getD []) "g" =
      some [⟨"aa:bb:cc:dd:ee:ff", ""⟩] ∧
    newMACgo "aa:bb:cc:dd:ee:ff" = "AA-BB-CC-DD-EE-FF" ∧
    ¬ ("aa:bb:cc:dd:ee:ff" : String) = "AA-BB-CC-DD-EE-FF" := by
  refine ⟨rfl, by decide, by decide, by decide, by decide⟩

end TubeTimeout
